import Mathlib

/-!
Verification of the centralized-logging configuration manager
(`src/app/logging_driver.py`, class `CentralizedLogging`).

The manager's own logic (merge of keyword options over the stored default
template, derivation of console/rotating-file/custom sinks, the `force`
reconfiguration gate, `setup_default_config`, `add_custom_handler`,
`get_config`, `reset`) is embedded directly from the source.  The underlying
logging runtime (`logging.basicConfig`, the root logger) and the filesystem
are external collaborators; they are modelled from the spec where noted.
-/

namespace LoggingDriver

/-- Numeric logging levels, as in the Python `logging` module
(NOTSET=0, DEBUG=10, INFO=20, WARNING=30, ERROR=40, CRITICAL=50). -/
abbrev Level := Nat

/-- A record formatter: `logging.Formatter(format, datefmt=...)`. -/
structure Formatter where
  fmt : Option String
  datefmt : Option String
deriving DecidableEq

/-- A sink (handler) attached to the root logging target.  `console` is
`logging.StreamHandler(sys.stdout)` with a formatter and threshold;
`rotatingFile` is `logging.handlers.RotatingFileHandler(filename, maxBytes,
backupCount, encoding)` with a formatter and threshold; `custom` is an opaque
caller-registered handler object, identified by a token; `runtimeDefault` is
the sink the underlying runtime installs when no explicit sink list is
passed. -/
inductive Sink where
  | console : Formatter → Level → Sink
  | rotatingFile : String → Nat → Nat → Option String → Formatter → Level → Sink
  | custom : Nat → Sink
  | runtimeDefault : Sink
deriving DecidableEq

/-- A fully merged configuration dictionary: the keys of
`CentralizedLogging.default_config` (always present after the merge), plus
the three extra keys (`max_bytes`, `backup_count`, `disable_console`) that
are present only when the caller supplied them.  Fields of `Option` type
model Python values that may be `None` (or, for the last three, absent). -/
structure Config where
  level : Level
  format : Option String
  datefmt : Option String
  filename : Option String
  filemode : String
  stream : Option Nat
  handlers : Option (List Sink)
  force : Bool
  encoding : Option String
  errors : Option String
  max_bytes : Option Nat
  backup_count : Option Nat
  disable_console : Option Bool
deriving DecidableEq

/-- The dictionary `self.default_config` as initialised in
`CentralizedLogging.__init__`. -/
def default_config : Config :=
  { level := 20
    format := some "%(asctime)s - %(name)s - %(levelname)s - %(message)s"
    datefmt := some "%Y-%m-%d %H:%M:%S"
    filename := none
    filemode := "a"
    stream := none
    handlers := none
    force := false
    encoding := some "utf-8"
    errors := none
    max_bytes := none
    backup_count := none
    disable_console := none }

/-- The `**kwargs` passed to `configure`: every field is `some v` when the
keyword is present with value `v` and `none` when the keyword is absent
(key presence is distinct from a `None` value, hence the nested `Option`s). -/
structure Kwargs where
  level : Option Level := none
  format : Option (Option String) := none
  datefmt : Option (Option String) := none
  filename : Option (Option String) := none
  filemode : Option String := none
  stream : Option (Option Nat) := none
  handlers : Option (Option (List Sink)) := none
  force : Option Bool := none
  encoding : Option (Option String) := none
  errors : Option (Option String) := none
  max_bytes : Option Nat := none
  backup_count : Option Nat := none
  disable_console : Option Bool := none
deriving DecidableEq

/-- The merge `config = self.default_config.copy(); config.update(kwargs)`:
a shallow dictionary merge, one key at a time, keywords overriding the
template. -/
def mergeConfig (d : Config) (k : Kwargs) : Config :=
  { level := k.level.getD d.level
    format := k.format.getD d.format
    datefmt := k.datefmt.getD d.datefmt
    filename := k.filename.getD d.filename
    filemode := k.filemode.getD d.filemode
    stream := k.stream.getD d.stream
    handlers := k.handlers.getD d.handlers
    force := k.force.getD d.force
    encoding := k.encoding.getD d.encoding
    errors := k.errors.getD d.errors
    max_bytes := k.max_bytes <|> d.max_bytes
    backup_count := k.backup_count <|> d.backup_count
    disable_console := k.disable_console <|> d.disable_console }

/-- Python truthiness of an optional string (`None` and `""` are falsy). -/
def strTruthy : Option String → Bool
  | none => false
  | some s => !(s == "")

/-- The function `os.path.dirname` for relative slash-separated paths:
everything before the last `/`, or `""` when there is no `/`. -/
def dirname (p : String) : String :=
  match p.data.reverse.dropWhile (fun c => !(c == '/')) with
  | [] => ""
  | _ :: rest => String.mk rest.reverse

/-- The directory-only filesystem model: the list of existing directories.
The working directory `"."` always exists. -/
def dirExists (fs : List String) (d : String) : Bool :=
  d == "." || fs.contains d

/-- The call `Path(d).mkdir(exist_ok=True)`: succeeds without change when `d` already
exists; creates `d` when its parent exists (a name with no `/` is created
under the working directory); fails otherwise, because `parents=True` is NOT
passed, so missing intermediate directories are an error. -/
def mkdirExistOk (fs : List String) (d : String) : Except Unit (List String) :=
  if dirExists fs d then .ok fs
  else if dirname d == "" || dirExists fs (dirname d) then .ok (d :: fs)
  else .error ()

/-- The formatter built in `_create_handlers`:
`logging.Formatter(config.get('format', ...), datefmt=config.get('datefmt', ...))`
(both keys are always present in the merged dictionary). -/
def mkFormatter (cfg : Config) : Formatter :=
  ⟨cfg.format, cfg.datefmt⟩

/-- The method `CentralizedLogging._create_handlers`: console sink unless
`disable_console` is truthy, then — when `filename` is truthy — creation of
the log directory followed by a rotating file sink, then the custom handlers.
Returns the updated filesystem and the handler list, or the propagated
directory-creation error. -/
def create_handlers (cfg : Config) (customs : List Sink) (fs : List String) :
    Except Unit (List String × List Sink) :=
  let handlers : List Sink :=
    if cfg.disable_console.getD false then []
    else [Sink.console (mkFormatter cfg) cfg.level]
  if strTruthy cfg.filename then
    let fn := cfg.filename.getD ""
    let log_dir := if dirname fn == "" then "." else dirname fn
    match mkdirExistOk fs log_dir with
    | .error e => .error e
    | .ok fs2 =>
        .ok (fs2,
          handlers
            ++ [Sink.rotatingFile fn (cfg.max_bytes.getD (10 * 1024 * 1024))
                  (cfg.backup_count.getD 5) cfg.encoding (mkFormatter cfg) cfg.level]
            ++ customs)
  else
    .ok (fs, handlers ++ customs)

/-- The state of the underlying root logging target. -/
structure RootState where
  level : Level
  handlers : List Sink
deriving DecidableEq

/-- Modelled from the spec: applying the effective configuration through the
underlying runtime (`logging.basicConfig`, outside this repository) installs
it as the process-wide active configuration, replacing the previous one: the
root threshold becomes the effective level, and the root sink list becomes
the explicit/derived list when one is passed, or the runtime's own default
sink when none is. -/
def applyBasicConfig (cfg : Config) : RootState :=
  { level := cfg.level
    handlers :=
      match cfg.handlers with
      | some hs => hs
      | none => [Sink.runtimeDefault] }

/-- The singleton manager's own state: the stored default template, the
registered custom handlers, and the `_configured` flag. -/
structure ManagerState where
  default_config : Config
  custom_handlers : List Sink
  configured : Bool
deriving DecidableEq

/-- The whole world a call observes: manager state, root logging target, and
the directory filesystem. -/
structure World where
  mgr : ManagerState
  root : RootState
  fs : List String
deriving DecidableEq

/-- The message printed by the no-op branch of `configure`. -/
def alreadyConfiguredMsg : String :=
  "Logging ya configurado. Usa force=True para reconfigurar."

/-- The handler-selection step of `configure` (lines 64-72): the shallow
merge over the stored template, then the `'handlers' in kwargs` bypass, then
sink derivation when the merged `filename` is truthy or custom handlers
exist, else the merged configuration untouched.  Returns the updated
filesystem and the configuration to apply. -/
def handlerStep (w : World) (k : Kwargs) : Except Unit (List String × Config) :=
  let config := mergeConfig w.mgr.default_config k
  match k.handlers with
  | some v => .ok (w.fs, { config with handlers := v })
  | none =>
      if strTruthy config.filename || !w.mgr.custom_handlers.isEmpty then
        match create_handlers config w.mgr.custom_handlers w.fs with
        | .error e => .error e
        | .ok (fs2, hs) => .ok (fs2, { config with handlers := some hs })
      else
        .ok (w.fs, config)

/-- The method `CentralizedLogging.configure(**kwargs)`: the `force` gate,
then the merge/selection step, then the apply step, setting `_configured`.
Returns the new world and the printed messages, or a propagated
sink-construction error. -/
def configure (w : World) (k : Kwargs) : Except Unit (World × List String) :=
  if w.mgr.configured && !(k.force.getD false) then
    .ok (w, [alreadyConfiguredMsg])
  else
    match handlerStep w k with
    | .error e => .error e
    | .ok (fs2, cfg) =>
        .ok ({ mgr := { w.mgr with configured := true }
               root := applyBasicConfig cfg
               fs := fs2 }, [])

/-- The method `CentralizedLogging.add_custom_handler`: appends to
`custom_handlers`. -/
def add_custom_handler (w : World) (h : Sink) : World :=
  { w with mgr := { w.mgr with custom_handlers := w.mgr.custom_handlers ++ [h] } }

/-- ASCII upper-casing of one character, as Python `str.upper` does on the
ASCII level names. -/
def upperChar (c : Char) : Char :=
  if 97 ≤ c.toNat && c.toNat ≤ 122 then Char.ofNat (c.toNat - 32) else c

/-- ASCII upper-casing of a string: `level.upper()` on ASCII input. -/
def pyUpper (s : String) : String :=
  String.mk (s.data.map upperChar)

/-- The value of an ALL-CAPS attribute of the `logging` module, as seen by
`getattr`: either a numeric level constant (CRITICAL, FATAL, ERROR, WARNING,
WARN, INFO, DEBUG, NOTSET) or the `BASIC_FORMAT` format string, the one
ALL-CAPS module attribute that is not a level. -/
inductive LoggingAttr where
  | level : Nat → LoggingAttr
  | fmt : String → LoggingAttr
deriving DecidableEq

/-- The lookup `getattr(logging, level.upper(), logging.INFO)` over the
ALL-CAPS attributes of the `logging` module: a level name resolves to its
numeric constant, `BASIC_FORMAT` resolves to the module's format string (a
non-level value), and a name matching no attribute falls back to the INFO
default. -/
def resolveLevelAttr (level : String) : LoggingAttr :=
  match pyUpper level with
  | "CRITICAL" => .level 50
  | "FATAL" => .level 50
  | "ERROR" => .level 40
  | "WARNING" => .level 30
  | "WARN" => .level 30
  | "INFO" => .level 20
  | "DEBUG" => .level 10
  | "NOTSET" => .level 0
  | "BASIC_FORMAT" => .fmt "%(levelname)s:%(name)s:%(message)s"
  | _ => .level 20

/-- The numeric projection of the resolved attribute, used by the typed
fragment of the embedding below: on a level-valued attribute it is the
resolved level.  On the `BASIC_FORMAT` string the real program produces no
level at all — the string flows into the built options and makes the
delegated call raise when it reaches `setLevel` — so the typed
`setup_default_config` only models names whose attribute is level-valued,
and `setup_default_config_attr` covers the full namespace. -/
def resolveLevel (level : String) : Level :=
  match resolveLevelAttr level with
  | .level n => n
  | .fmt _ => 20

/-- The path join `str(Path(d) / f)` for a relative directory name without a
trailing slash. -/
def pathJoin (d f : String) : String :=
  if d == "" then f else d ++ "/" ++ f

/-- The keyword dictionary `setup_default_config` builds before delegating to
`configure`. -/
def setupKwargs (level : String) (log_to_file log_to_console : Bool)
    (log_dir : String) : Kwargs :=
  let config : Kwargs :=
    { level := some (resolveLevel level)
      format := some (some "%(asctime)s - %(name)s - %(levelname)s - %(message)s")
      datefmt := some (some "%Y-%m-%d %H:%M:%S")
      force := some true }
  let config :=
    if log_to_file then
      { config with
          filename := some (some (pathJoin log_dir "application.log"))
          max_bytes := some (10 * 1024 * 1024)
          backup_count := some 5 }
    else config
  if !log_to_console then { config with disable_console := some true } else config

/-- The method `CentralizedLogging.setup_default_config`: resolves the level, creates the
log directory when logging to a file, and delegates to `configure` with the
built keywords (always including `force=True`). -/
def setup_default_config (w : World) (level : String)
    (log_to_file log_to_console : Bool) (log_dir : String) :
    Except Unit (World × List String) :=
  if log_to_file then
    match mkdirExistOk w.fs log_dir with
    | .error e => .error e
    | .ok fs2 =>
        configure { w with fs := fs2 } (setupKwargs level log_to_file log_to_console log_dir)
  else
    configure w (setupKwargs level log_to_file log_to_console log_dir)

/-- The snapshot returned by `get_config`. -/
structure ConfigSnapshot where
  level : Level
  handlers_count : Nat
  configured : Bool
deriving DecidableEq

/-- The method `CentralizedLogging.get_config`: root level, root handler
count, and the `_configured` flag. -/
def get_config (w : World) : ConfigSnapshot :=
  { level := w.root.level
    handlers_count := w.root.handlers.length
    configured := w.mgr.configured }

/-- The method `CentralizedLogging.reset`: removes every root handler,
clears `_configured`, empties `custom_handlers`. -/
def reset (w : World) : World :=
  { w with
      mgr := { w.mgr with configured := false, custom_handlers := [] }
      root := { w.root with handlers := [] } }

/-- The manager as created by `__init__` on first access. -/
def initialManager : ManagerState :=
  { default_config := default_config
    custom_handlers := []
    configured := false }

/-- Modelled from the spec: the process-start state of the underlying logging
runtime (outside this repository): no sinks installed on the root target, and
the runtime's default root threshold, WARNING (30). -/
def initialRoot : RootState :=
  { level := 30, handlers := [] }

/-- The world at process start, with an empty directory model. -/
def initialWorld : World :=
  { mgr := initialManager, root := initialRoot, fs := [] }

/-- The sink list as the spec's handler-construction algorithm (section
4.1.a) words it: a console sink to standard output with the formatter and
threshold, included unless `disableConsole` is true; then a rotating file
sink for the file name with `maxBytes`, `backupCount`, `encoding`, the same
formatter and threshold, included when the file name is set; then every
custom handler in registration order.  Stated independently of
`create_handlers`, to be compared with it. -/
def specSinkList (cfg : Config) (customs : List Sink) : List Sink :=
  (if cfg.disable_console.getD false = true then []
   else [Sink.console (mkFormatter cfg) cfg.level])
  ++ (if strTruthy cfg.filename then
        [Sink.rotatingFile (cfg.filename.getD "") (cfg.max_bytes.getD (10 * 1024 * 1024))
          (cfg.backup_count.getD 5) cfg.encoding (mkFormatter cfg) cfg.level]
      else [])
  ++ customs

/-- The world after one effective `configure` call that derives no sinks and
keeps the default level: configured, no custom handlers, root at INFO with
the runtime-default sink. -/
def postDefaultWorld : World :=
  { mgr := { default_config := default_config, custom_handlers := [], configured := true }
    root := { level := 20, handlers := [Sink.runtimeDefault] }
    fs := [] }

/-- A first forced call setting the level to DEBUG. -/
def debugForceKwargs : Kwargs :=
  { level := some 10, force := some true }

/-- A second forced call setting only the format. -/
def formatForceKwargs : Kwargs :=
  { format := some (some "x"), force := some true }

/-- Helper: a successful `configure` always leaves the manager configured
(the no-op branch requires it, the apply branch sets it). -/
theorem configure_ok_configured (w w2 : World) (k : Kwargs) (m : List String)
    (h : configure w k = .ok (w2, m)) : w2.mgr.configured = true := by
  unfold configure at h
  split at h
  · next hc =>
      obtain ⟨h1, -⟩ := Prod.mk.injEq .. ▸ Except.ok.inj h
      subst h1
      exact (Bool.and_eq_true ..).mp hc |>.1
  · split at h
    · exact absurd h (by simp)
    · obtain ⟨h1, -⟩ := Prod.mk.injEq .. ▸ Except.ok.inj h
      subst h1
      rfl

/-- Helper: a successful `configure` never changes the stored default
template. -/
theorem configure_ok_default_config (w w2 : World) (k : Kwargs) (m : List String)
    (h : configure w k = .ok (w2, m)) : w2.mgr.default_config = w.mgr.default_config := by
  unfold configure at h
  split at h
  · obtain ⟨h1, -⟩ := Prod.mk.injEq .. ▸ Except.ok.inj h
    subst h1
    rfl
  · split at h
    · exact absurd h (by simp)
    · obtain ⟨h1, -⟩ := Prod.mk.injEq .. ▸ Except.ok.inj h
      subst h1
      rfl

/-- Helper: when the manager is unconfigured or `force` is truthy, the gate
is open and `configure` runs the merge/selection/apply pipeline. -/
theorem configure_gate_open (w : World) (k : Kwargs)
    (hg : w.mgr.configured = false ∨ k.force.getD false = true) :
    configure w k =
      match handlerStep w k with
      | .error e => .error e
      | .ok (fs2, cfg) =>
          .ok ({ mgr := { w.mgr with configured := true }
                 root := applyBasicConfig cfg
                 fs := fs2 }, []) := by
  rcases hg with hg | hg <;> simp [configure, hg]

/-- Helper: the selection step only ever rewrites the `handlers` field of the
merged configuration. -/
theorem handlerStep_ok_shape (w : World) (k : Kwargs) (fs2 : List String) (cfg : Config)
    (h : handlerStep w k = .ok (fs2, cfg)) :
    cfg = { mergeConfig w.mgr.default_config k with handlers := cfg.handlers } := by
  simp only [handlerStep] at h
  split at h
  · obtain ⟨-, h2⟩ := Prod.mk.injEq .. ▸ Except.ok.inj h
    subst h2
    rfl
  · split at h
    · split at h
      · exact absurd h (by simp)
      · obtain ⟨-, h2⟩ := Prod.mk.injEq .. ▸ Except.ok.inj h
        subst h2
        rfl
    · obtain ⟨-, h2⟩ := Prod.mk.injEq .. ▸ Except.ok.inj h
      subst h2
      rfl

/-- Helper: after a gate-open successful `configure`, the active root level
is the level of the fresh merge of the keywords over the stored template. -/
theorem configure_ok_level (w w2 : World) (k : Kwargs) (m : List String)
    (hg : w.mgr.configured = false ∨ k.force.getD false = true)
    (h : configure w k = .ok (w2, m)) :
    w2.root.level = (mergeConfig w.mgr.default_config k).level := by
  rw [configure_gate_open w k hg] at h
  split at h
  · exact absurd h (by simp)
  · next fs2 cfg heq =>
      obtain ⟨h1, -⟩ := Prod.mk.injEq .. ▸ Except.ok.inj h
      subst h1
      have := handlerStep_ok_shape w k fs2 cfg heq
      calc (applyBasicConfig cfg).level = cfg.level := rfl
        _ = (mergeConfig w.mgr.default_config k).level := by rw [this]

/-- Helper: `create_handlers` is the directory side effect (only when the
file name is truthy) paired with the spec-side sink list. -/
theorem create_handlers_eq (cfg : Config) (customs : List Sink) (fs : List String) :
    create_handlers cfg customs fs =
      (if strTruthy cfg.filename then
         mkdirExistOk fs
           (if dirname (cfg.filename.getD "") == "" then "."
            else dirname (cfg.filename.getD ""))
       else .ok fs).map (fun fs2 => (fs2, specSinkList cfg customs)) := by
  cases hdc : cfg.disable_console.getD false <;>
    cases hft : strTruthy cfg.filename <;>
      simp only [create_handlers, specSinkList, hdc, hft, Bool.false_eq_true,
        if_false, if_true, Except.map] <;>
    try rfl
  all_goals
    cases hmk : mkdirExistOk fs
        (if dirname (cfg.filename.getD "") == "" then "."
         else dirname (cfg.filename.getD "")) <;>
      simp [hmk]

/-- C1: with the manager already configured and `force` not truthy,
`configure` is a no-op that returns the unchanged world together with the
warning message (not an error); consequently the second of two `force`-less
calls in a row leaves the world of the first call untouched, so none of its
fields are ever observed. -/
theorem configure_noop_without_force (w w1 : World) (k1 k2 : Kwargs) (m1 : List String) :
    (w.mgr.configured = true → k2.force.getD false = false →
      configure w k2 = .ok (w, [alreadyConfiguredMsg]))
    ∧ (k1.force.getD false = false → k2.force.getD false = false →
        configure w k1 = .ok (w1, m1) →
        configure w1 k2 = .ok (w1, [alreadyConfiguredMsg])) := by
  constructor
  · intro h1 h2
    simp [configure, h1, h2]
  · intro _ h2 h3
    simp [configure, configure_ok_configured w w1 k1 m1 h3, h2]

/-- C1 witness: a first default `configure` applies; the second call is the
concrete no-op with the warning message. -/
theorem configure_noop_without_force_witness :
    configure initialWorld {} = .ok (postDefaultWorld, []) ∧
    configure postDefaultWorld {} = .ok (postDefaultWorld, [alreadyConfiguredMsg]) :=
  ⟨rfl, (configure_noop_without_force initialWorld postDefaultWorld {} {} []).2 rfl rfl rfl⟩

/-- C2 counterexample: two forced calls where the first sets level DEBUG and
the second omits `level`; the resulting active threshold is the template
default INFO (20), not the first call's DEBUG (10), so a field absent from
the second call does not retain the first call's value. -/
theorem force_remerge_counterexample :
    (configure initialWorld debugForceKwargs).map (fun p => p.1.root.level) = .ok 10
    ∧ ((configure initialWorld debugForceKwargs).bind fun p =>
        configure p.1 formatForceKwargs).map (fun p => p.1.root.level) = .ok 20
    ∧ formatForceKwargs.level = none
    ∧ (20 : Level) ≠ 10 :=
  ⟨rfl, rfl, rfl, by decide⟩

/-- C2 amended: a forced `configure` merges against the stored default
template, not the previously active configuration: a field present in the
call supersedes the default, and a field absent from the call reverts to the
template value, whatever an earlier call had set. -/
theorem force_remerges_against_defaults (w w2 : World) (k : Kwargs) (m : List String)
    (fs2 : List String) (cfg : Config) :
    (k.force.getD false = true → configure w k = .ok (w2, m) →
      w2.root.level = k.level.getD w.mgr.default_config.level)
    ∧ (handlerStep w k = .ok (fs2, cfg) →
      cfg = { mergeConfig w.mgr.default_config k with handlers := cfg.handlers }) := by
  constructor
  · intro hf h
    exact configure_ok_level w w2 k m (Or.inr hf) h
  · exact handlerStep_ok_shape w k fs2 cfg

/-- C2 amended witness: the concrete second forced call of the
counterexample pair, evaluated. -/
theorem force_remerges_against_defaults_witness :
    postDefaultWorld.root.level
      = formatForceKwargs.level.getD initialWorld.mgr.default_config.level :=
  (force_remerges_against_defaults initialWorld postDefaultWorld formatForceKwargs
    [] [] default_config).1 rfl rfl

/-- The world reached by a forced DEBUG `configure` followed by `reset`. -/
def resetAfterDebugWorld : World :=
  { mgr := { default_config := default_config, custom_handlers := [], configured := false }
    root := { level := 10, handlers := [] }
    fs := [] }

/-- C5 counterexample: configure at DEBUG with force, then `reset`; the
manager fields do return to their initial values, but the active root
threshold stays at DEBUG (10) instead of the process-start WARNING (30), so
the resulting state is not a blank slate equivalent to process start. -/
theorem reset_not_blank_slate_counterexample :
    (configure initialWorld debugForceKwargs).map (fun p => reset p.1)
      = .ok resetAfterDebugWorld
    ∧ resetAfterDebugWorld.mgr = initialWorld.mgr
    ∧ resetAfterDebugWorld.root.level = 10
    ∧ initialWorld.root.level = 30
    ∧ resetAfterDebugWorld.root ≠ initialWorld.root :=
  ⟨rfl, rfl, rfl, rfl, by decide⟩

/-- C5 amended: `reset` clears the configured flag, empties the custom
handlers, removes every sink from the root target, and is idempotent with no
error; `get_config` afterwards reports `configured = false` and a sink count
of 0; but the active root threshold keeps its last configured value rather
than reverting to the process-start value. -/
theorem reset_postconditions (w : World) :
    (reset w).mgr.configured = false
    ∧ (reset w).mgr.custom_handlers = []
    ∧ (reset w).root.handlers = []
    ∧ (get_config (reset w)).configured = false
    ∧ (get_config (reset w)).handlers_count = 0
    ∧ reset (reset w) = reset w
    ∧ (reset w).root.level = w.root.level
    ∧ (reset w).mgr.default_config = w.mgr.default_config :=
  ⟨rfl, rfl, rfl, rfl, rfl, rfl, rfl, rfl⟩

/-- C9 counterexample: registering the same handler object twice stores it
twice, so `custom_handlers` is not unique by identity. -/
theorem add_custom_handler_duplicate_counterexample :
    (add_custom_handler (add_custom_handler initialWorld (Sink.custom 0))
        (Sink.custom 0)).mgr.custom_handlers = [Sink.custom 0, Sink.custom 0]
    ∧ (add_custom_handler (add_custom_handler initialWorld (Sink.custom 0))
        (Sink.custom 0)).mgr.custom_handlers.count (Sink.custom 0) = 2
    ∧ ¬ (add_custom_handler (add_custom_handler initialWorld (Sink.custom 0))
        (Sink.custom 0)).mgr.custom_handlers.Nodup :=
  ⟨rfl, by decide, by decide⟩

/-- C9 amended: `custom_handlers` is append-only via `add_custom_handler`,
with no identity dedup: each registration appends exactly one occurrence of
the registered handler, and nothing else changes. -/
theorem add_custom_handler_append (w : World) (h : Sink) :
    (add_custom_handler w h).mgr.custom_handlers = w.mgr.custom_handlers ++ [h]
    ∧ (add_custom_handler w h).mgr.custom_handlers.count h
        = w.mgr.custom_handlers.count h + 1
    ∧ (add_custom_handler w h).mgr.configured = w.mgr.configured
    ∧ (add_custom_handler w h).root = w.root := by
  refine ⟨rfl, ?_, rfl, rfl⟩
  simp [add_custom_handler]

/-- Helper: a successful `create_handlers` returns exactly the spec-side
sink list. -/
theorem create_handlers_ok_sinks (cfg : Config) (customs : List Sink)
    (fs fs2 : List String) (hs : List Sink)
    (h : create_handlers cfg customs fs = .ok (fs2, hs)) :
    hs = specSinkList cfg customs := by
  rw [create_handlers_eq] at h
  split at h
  · cases hmk : mkdirExistOk fs
        (if dirname (cfg.filename.getD "") == "" then "."
         else dirname (cfg.filename.getD "")) <;>
      rw [hmk] at h <;> simp [Except.map] at h
    exact h.2.symm
  · simp [Except.map] at h
    exact h.2.symm

/-- The world reached by a forced DEBUG `configure` from process start. -/
def postDebugWorld : World :=
  { mgr := { default_config := default_config, custom_handlers := [], configured := true }
    root := { level := 10, handlers := [Sink.runtimeDefault] }
    fs := [] }

/-- C3: the effective configuration `configure` computes is the stored
default template shallow-merged with the caller's options — field by field,
a present option fully overrides and an absent option keeps the template
value — and no operation ever mutates the stored template, so the merge is
never against a previously applied configuration. -/
theorem effective_config_is_template_merge (d : Config) (k : Kwargs)
    (w w2 : World) (h : Sink) (m : List String) :
    ((mergeConfig d k).level = k.level.getD d.level
      ∧ (mergeConfig d k).format = k.format.getD d.format
      ∧ (mergeConfig d k).datefmt = k.datefmt.getD d.datefmt
      ∧ (mergeConfig d k).filename = k.filename.getD d.filename
      ∧ (mergeConfig d k).filemode = k.filemode.getD d.filemode
      ∧ (mergeConfig d k).stream = k.stream.getD d.stream
      ∧ (mergeConfig d k).handlers = k.handlers.getD d.handlers
      ∧ (mergeConfig d k).force = k.force.getD d.force
      ∧ (mergeConfig d k).encoding = k.encoding.getD d.encoding
      ∧ (mergeConfig d k).errors = k.errors.getD d.errors)
    ∧ (configure w k = .ok (w2, m) → w2.mgr.default_config = w.mgr.default_config)
    ∧ (reset w).mgr.default_config = w.mgr.default_config
    ∧ (add_custom_handler w h).mgr.default_config = w.mgr.default_config
    ∧ ((w.mgr.configured = false ∨ k.force.getD false = true) →
        configure w k = .ok (w2, m) →
        w2.root.level = (mergeConfig w.mgr.default_config k).level) := by
  refine ⟨⟨rfl, rfl, rfl, rfl, rfl, rfl, rfl, rfl, rfl, rfl⟩, ?_, rfl, rfl, ?_⟩
  · exact configure_ok_default_config w w2 k m
  · exact fun hg hc => configure_ok_level w w2 k m hg hc

/-- C3 witness: one concrete effective call, checking template preservation
and the merged level. -/
theorem effective_config_is_template_merge_witness :
    postDebugWorld.mgr.default_config = initialWorld.mgr.default_config
    ∧ postDebugWorld.root.level
        = (mergeConfig initialWorld.mgr.default_config debugForceKwargs).level :=
  ⟨(effective_config_is_template_merge default_config debugForceKwargs initialWorld
      postDebugWorld (Sink.custom 0) []).2.1 rfl,
   (effective_config_is_template_merge default_config debugForceKwargs initialWorld
      postDebugWorld (Sink.custom 0) []).2.2.2.2 (Or.inl rfl) rfl⟩

/-- C4: a successful derivation produces exactly the spec's sink list —
console sink (iff `disable_console` is not truthy), then the rotating file
sink with its parameters (iff the file name is truthy), then the custom
handlers in registration order, each registration exactly once; `configure`
passes the caller's explicit `handlers` value verbatim when that keyword is
present, derives sinks exactly when the merged file name is truthy or custom
handlers exist, and otherwise passes no explicit sink list (the runtime
default applies). -/
theorem sink_derivation (cfg : Config) (customs : List Sink) (fs fs2 : List String)
    (hs v : List Sink) (w w2 : World) (k : Kwargs) (m : List String) (i : Nat) :
    (create_handlers cfg customs fs = .ok (fs2, hs) → hs = specSinkList cfg customs)
    ∧ (specSinkList cfg customs).count (Sink.custom i) = customs.count (Sink.custom i)
    ∧ (k.handlers = some (some v) →
        (w.mgr.configured = false ∨ k.force.getD false = true) →
        configure w k = .ok (w2, m) → w2.root.handlers = v)
    ∧ (k.handlers = none →
        (w.mgr.configured = false ∨ k.force.getD false = true) →
        strTruthy (mergeConfig w.mgr.default_config k).filename = false →
        w.mgr.custom_handlers = [] →
        w.mgr.default_config.handlers = none →
        configure w k = .ok (w2, m) → w2.root.handlers = [Sink.runtimeDefault])
    ∧ (k.handlers = none →
        (w.mgr.configured = false ∨ k.force.getD false = true) →
        (strTruthy (mergeConfig w.mgr.default_config k).filename = true ∨
          w.mgr.custom_handlers ≠ []) →
        configure w k = .ok (w2, m) →
        w2.root.handlers
          = specSinkList (mergeConfig w.mgr.default_config k) w.mgr.custom_handlers) := by
  refine ⟨create_handlers_ok_sinks cfg customs fs fs2 hs, ?_, ?_, ?_, ?_⟩
  · simp only [specSinkList, List.count_append]
    have h1 : ∀ f l, (List.count (Sink.custom i)
        (if cfg.disable_console.getD false = true then []
         else [Sink.console f l])) = 0 := by
      intro f l
      split <;> simp [List.count_eq_zero]
    have h2 : List.count (Sink.custom i)
        (if strTruthy cfg.filename then
          [Sink.rotatingFile (cfg.filename.getD "") (cfg.max_bytes.getD (10 * 1024 * 1024))
            (cfg.backup_count.getD 5) cfg.encoding (mkFormatter cfg) cfg.level]
         else []) = 0 := by
      split <;> simp [List.count_eq_zero]
    rw [h1, h2]
    simp
  · intro hk hg hc
    rw [configure_gate_open w k hg] at hc
    simp only [handlerStep, hk] at hc
    obtain ⟨h1, -⟩ := Prod.mk.injEq .. ▸ Except.ok.inj hc
    subst h1
    rfl
  · intro hk hg hft hce hdh hc
    rw [configure_gate_open w k hg] at hc
    simp only [handlerStep, hk, hft, hce, List.isEmpty_nil, Bool.not_true,
      Bool.or_self, Bool.false_eq_true, if_false] at hc
    obtain ⟨h1, -⟩ := Prod.mk.injEq .. ▸ Except.ok.inj hc
    subst h1
    show (applyBasicConfig (mergeConfig w.mgr.default_config k)).handlers = _
    have : (mergeConfig w.mgr.default_config k).handlers = none := by
      show k.handlers.getD w.mgr.default_config.handlers = none
      rw [hk, hdh]
      rfl
    simp [applyBasicConfig, this]
  · intro hk hg hcond hc
    rw [configure_gate_open w k hg] at hc
    have hor : (strTruthy (mergeConfig w.mgr.default_config k).filename
        || !w.mgr.custom_handlers.isEmpty) = true := by
      rcases hcond with hcond | hcond
      · simp [hcond]
      · have hne : w.mgr.custom_handlers.isEmpty = false := by
          cases hcl : w.mgr.custom_handlers
          · exact absurd hcl hcond
          · rfl
        simp [hne]
    simp only [handlerStep, hk, hor, if_true] at hc
    rcases hch : create_handlers (mergeConfig w.mgr.default_config k)
        w.mgr.custom_handlers w.fs with e | ⟨fs3, hs3⟩
    · rw [hch] at hc
      exact absurd hc (by simp)
    · rw [hch] at hc
      obtain ⟨h1, -⟩ := Prod.mk.injEq .. ▸ Except.ok.inj hc
      subst h1
      show hs3 = _
      exact create_handlers_ok_sinks _ _ _ _ _ hch

/-- The world with one registered custom handler. -/
def customWorld : World := add_custom_handler initialWorld (Sink.custom 3)

/-- Options naming a log file inside an existing-parent directory. -/
def fileKwargs : Kwargs := { filename := some (some "logs/app.log") }

/-- The default formatter of the template. -/
def defaultFormatter : Formatter :=
  ⟨some "%(asctime)s - %(name)s - %(levelname)s - %(message)s", some "%Y-%m-%d %H:%M:%S"⟩

/-- The world after `configure` derives console + file + custom sinks. -/
def derivedWorld : World :=
  { mgr := { default_config := default_config, custom_handlers := [Sink.custom 3]
             configured := true }
    root := { level := 20
              handlers := [Sink.console defaultFormatter 20,
                Sink.rotatingFile "logs/app.log" (10 * 1024 * 1024) 5 (some "utf-8")
                  defaultFormatter 20,
                Sink.custom 3] }
    fs := ["logs"] }

/-- C4 witness: the concrete derivation with one registered custom handler
and a file name, matching the spec-side sink list. -/
theorem sink_derivation_witness :
    configure customWorld fileKwargs = .ok (derivedWorld, [])
    ∧ derivedWorld.root.handlers
        = specSinkList (mergeConfig customWorld.mgr.default_config fileKwargs)
            customWorld.mgr.custom_handlers :=
  ⟨rfl,
   (sink_derivation default_config [] [] [] [] [] customWorld derivedWorld fileKwargs [] 0).2.2.2.2
     rfl (Or.inl rfl) (Or.inl rfl) rfl⟩

/-- C7: `setup_default_config` always sets `force = true`; with
`log_to_file` it sets the file name to `log_dir/"application.log"`, 10 MiB
rotation and 5 backups; with `log_to_console = false` it sets
`disable_console = true`; and it delegates to `configure` with exactly the
built options (after creating the log directory in the file case). -/
theorem setup_builds_forced_options (level : String) (ltf ltc : Bool)
    (d : String) (w : World) :
    (setupKwargs level ltf ltc d).force = some true
    ∧ (setupKwargs level true ltc d).filename = some (some (pathJoin d "application.log"))
    ∧ (setupKwargs level true ltc d).max_bytes = some (10 * 1024 * 1024)
    ∧ (setupKwargs level true ltc d).backup_count = some 5
    ∧ (setupKwargs level ltf false d).disable_console = some true
    ∧ (setupKwargs level false ltc d).filename = none
    ∧ (setupKwargs level ltf true d).disable_console = none
    ∧ (setupKwargs level ltf ltc d).level = some (resolveLevel level)
    ∧ setup_default_config w level false ltc d = configure w (setupKwargs level false ltc d)
    ∧ setup_default_config w level true ltc d =
        (match mkdirExistOk w.fs d with
         | .error e => .error e
         | .ok fs2 => configure { w with fs := fs2 } (setupKwargs level true ltc d)) := by
  refine ⟨?_, ?_, ?_, ?_, ?_, ?_, ?_, ?_, rfl, rfl⟩ <;> cases ltf <;> cases ltc <;> rfl

/-- A merged configuration whose file name has a missing intermediate
directory. -/
def missingParentConfig : Config :=
  { default_config with filename := some "a/b/app.log" }

/-- C8 counterexample: with the parent directory `a/b` missing and `a`
missing too, the file-sink path does not create the intermediate
directories; `create_handlers` fails instead of creating `a/b`. -/
theorem mkdir_no_intermediates_counterexample :
    create_handlers missingParentConfig [] [] = .error ()
    ∧ dirname "a/b/app.log" = "a/b"
    ∧ dirExists [] "a/b" = false
    ∧ mkdirExistOk [] "a/b" = .error () :=
  ⟨rfl, rfl, rfl, rfl⟩

/-- C8 amended: before the file sink opens, only the immediate parent
directory of the file name is created, and only when its own parent already
exists; an already-existing directory is success (idempotent); missing
intermediate directories are not created and make sink construction fail. -/
theorem mkdir_parent_only (fs : List String) (dir : String) (cfg : Config)
    (customs : List Sink) (fn : String) :
    (dirExists fs dir = true → mkdirExistOk fs dir = .ok fs)
    ∧ (dirExists fs dir = false →
        (dirname dir == "" || dirExists fs (dirname dir)) = true →
        mkdirExistOk fs dir = .ok (dir :: fs))
    ∧ (dirExists fs dir = false →
        (dirname dir == "" || dirExists fs (dirname dir)) = false →
        mkdirExistOk fs dir = .error ())
    ∧ (cfg.filename = some fn → strTruthy cfg.filename = true →
        create_handlers cfg customs fs =
          (mkdirExistOk fs (if dirname fn == "" then "." else dirname fn)).map
            (fun fs2 => (fs2, specSinkList cfg customs))) := by
  refine ⟨?_, ?_, ?_, ?_⟩
  · intro h1
    simp [mkdirExistOk, h1]
  · intro h1 h2
    simp [mkdirExistOk, h1, h2]
  · intro h1 h2
    simp [mkdirExistOk, h1, h2]
  · intro h1 h2
    rw [create_handlers_eq, h2, h1]
    rfl

/-- C8 amended witness: idempotent success on an existing directory,
single-level creation under an existing parent, failure on a missing
intermediate, and the file-sink path evaluated on a concrete
configuration. -/
theorem mkdir_parent_only_witness :
    mkdirExistOk ["a"] "a" = .ok ["a"]
    ∧ mkdirExistOk ["a"] "a/b" = .ok ["a/b", "a"]
    ∧ mkdirExistOk [] "a/b" = .error ()
    ∧ create_handlers missingParentConfig [] ["a/b"] =
        (mkdirExistOk ["a/b"]
            (if dirname "a/b/app.log" == "" then "." else dirname "a/b/app.log")).map
          (fun fs2 => (fs2, specSinkList missingParentConfig [])) :=
  ⟨(mkdir_parent_only ["a"] "a" missingParentConfig [] "a/b/app.log").1 rfl,
   (mkdir_parent_only ["a"] "a/b" missingParentConfig [] "a/b/app.log").2.1 rfl rfl,
   (mkdir_parent_only [] "a/b" missingParentConfig [] "a/b/app.log").2.2.1 rfl rfl,
   (mkdir_parent_only ["a/b"] "x" missingParentConfig [] "a/b/app.log").2.2.2 rfl rfl⟩

/-- C10: the bypass of derived-sink construction is keyed on the presence of
the `handlers` keyword, not on its value: whenever the keyword is present —
even with value `None` — `configure` performs no sink derivation at all (the
filesystem is untouched, no error can arise from directory creation) and the
value is applied verbatim, regardless of the effective file name or the
registered custom handlers. -/
theorem handlers_key_bypass (w : World) (k : Kwargs) (v : Option (List Sink)) :
    k.handlers = some v →
    (w.mgr.configured = false ∨ k.force.getD false = true) →
    configure w k =
      .ok ({ mgr := { w.mgr with configured := true }
             root := { level := (mergeConfig w.mgr.default_config k).level
                       handlers := v.getD [Sink.runtimeDefault] }
             fs := w.fs }, []) := by
  intro hk hg
  rw [configure_gate_open w k hg]
  simp only [handlerStep, hk]
  cases v <;> rfl

/-- A world with a registered custom handler, for the bypass witness. -/
def bypassWorld : World := add_custom_handler initialWorld (Sink.custom 7)

/-- Options with the `handlers` keyword present with value `None`, together
with a file name whose directories do not exist. -/
def bypassKwargs : Kwargs :=
  { filename := some (some "a/b/app.log"), handlers := some none, force := some true }

/-- C10 witness: with `handlers=None` present, a file name set and a custom
handler registered, `configure` still skips derivation: no directory is
created and the runtime default applies. -/
theorem handlers_key_bypass_witness :
    configure bypassWorld bypassKwargs =
      .ok ({ mgr := { default_config := default_config
                      custom_handlers := [Sink.custom 7]
                      configured := true }
             root := { level := 20, handlers := [Sink.runtimeDefault] }
             fs := [] }, []) :=
  handlers_key_bypass bypassWorld bypassKwargs none rfl (Or.inr rfl)

end LoggingDriver
